import Mathlib

/-!
Shallow embedding of `src/setup.py` of the CyClops repository.

The repository consists of a single packaging descriptor: a call to
`setuptools.setup(...)` with literal metadata.  We embed the keyword
arguments of that call as a Lean structure.  The `packages` field is
computed in the source by `find_packages(where="src")`; `find_packages`
is external setuptools code, so we keep it abstract: the embedding is
parameterised by an arbitrary discovery function and an arbitrary
filesystem state, and the descriptor stores exactly the result of
applying that function to the root `"src"`.
-/

/-- The keyword arguments of the `setup(...)` call in `src/setup.py`,
as a record.  `packages` is the (discovered) package list;
`package_dir` is the root alias mapping; `install_requires` the
mandatory dependencies; `extras_require` the optional dependency
groups, each an ordered list of requirement strings. -/
structure SetupDescriptor where
  name : String
  version : String
  packages : List String
  package_dir : List (String × String)
  install_requires : List String
  extras_require : List (String × List String)
deriving Repr, DecidableEq

/-- The ordered list literal bound to the `"dev"` key of
`extras_require` in `src/setup.py`, lines 10-17.  Comments in the
source (`# For testing`, ...) are not part of the strings. -/
def devTools : List String :=
  ["pytest", "flake8", "black", "isort", "mypy", "pre-commit"]

/-- The `setup(...)` call of `src/setup.py`, lines 3-19.  `FS` is an
abstract type of filesystem states and `find_packages` an abstract
discovery function, standing for `setuptools.find_packages`; the
source passes it the single keyword argument `where="src"`. -/
def setupCall {FS : Type} (find_packages : String → FS → List String)
    (fs : FS) : SetupDescriptor :=
  { name := "CyCAD"
  , version := "0.1.0"
  , packages := find_packages "src" fs
  , package_dir := [("", "src")]
  , install_requires := []
  , extras_require := [("dev", devTools)] }

/-- The characters of version-constraint operators in requirement
strings (`==`, `<=`, `>=`, `!=`, `~=`, `<`, `>`). -/
def versionConstraintChars : List Char := ['=', '<', '>', '!', '~']

/-- A requirement string is unversioned (a bare tool name) when it
contains none of the version-constraint operator characters. -/
def isUnversioned (s : String) : Bool :=
  s.toList.all (fun c => !(versionConstraintChars.contains c))

/-- Look up an optional dependency group by name in `extras_require`. -/
def extrasLookup (d : SetupDescriptor) (g : String) :
    Option (List String) :=
  (d.extras_require.lookup g)

/-- C1: the `"dev"` optional dependency group declared in the setup
descriptor contains exactly six entries. -/
theorem dev_group_has_six_entries {FS : Type}
    (find_packages : String → FS → List String) (fs : FS) :
    ∃ l, extrasLookup (setupCall find_packages fs) "dev" = some l ∧
      l.length = 6 :=
  ⟨devTools, rfl, rfl⟩

/-- C2: the `"dev"` group is the ordered list
`["pytest", "flake8", "black", "isort", "mypy", "pre-commit"]`:
testing tool, linter, formatter, import sorter, type checker,
commit-hook manager, in that order. -/
theorem dev_group_ordered_list {FS : Type}
    (find_packages : String → FS → List String) (fs : FS) :
    extrasLookup (setupCall find_packages fs) "dev" =
      some ["pytest", "flake8", "black", "isort", "mypy", "pre-commit"] :=
  rfl

/-- C3: the mandatory dependency list (`install_requires`) declared in
the setup descriptor is empty. -/
theorem install_requires_empty {FS : Type}
    (find_packages : String → FS → List String) (fs : FS) :
    (setupCall find_packages fs).install_requires = [] :=
  rfl

/-- C4: the distributable name declared in the setup descriptor equals
the string `"CyCAD"`. -/
theorem name_is_CyCAD {FS : Type}
    (find_packages : String → FS → List String) (fs : FS) :
    (setupCall find_packages fs).name = "CyCAD" :=
  rfl

/-- C5: the version declared in the setup descriptor equals the string
`"0.1.0"`. -/
theorem version_is_0_1_0 {FS : Type}
    (find_packages : String → FS → List String) (fs : FS) :
    (setupCall find_packages fs).version = "0.1.0" :=
  rfl

/-- C6: the package root mapping declared in the setup descriptor maps
the empty prefix to the directory `"src"`, and nothing else. -/
theorem package_dir_maps_empty_to_src {FS : Type}
    (find_packages : String → FS → List String) (fs : FS) :
    (setupCall find_packages fs).package_dir = [("", "src")] :=
  rfl

/-- C7: every entry of the `"dev"` optional dependency group is an
unversioned bare tool name: no entry contains a version-constraint
operator character ('=', '<', '>', '!' or '~'). -/
theorem dev_entries_unversioned {FS : Type}
    (find_packages : String → FS → List String) (fs : FS) :
    ∃ l, extrasLookup (setupCall find_packages fs) "dev" = some l ∧
      l.all isUnversioned = true :=
  ⟨devTools, rfl, by decide⟩

/-- C8: the package list is not an explicit enumeration: for every
discovery function and every filesystem state, the declared package
list equals the result of package discovery under the root `"src"`. -/
theorem packages_are_discovered_under_src {FS : Type}
    (find_packages : String → FS → List String) (fs : FS) :
    (setupCall find_packages fs).packages = find_packages "src" fs :=
  rfl

/-- C9: the optional-dependency mapping contains exactly one group:
its key list is `["dev"]`, and looking up any group name other than
`"dev"` yields nothing. -/
theorem extras_only_dev {FS : Type}
    (find_packages : String → FS → List String) (fs : FS) :
    (setupCall find_packages fs).extras_require.map Prod.fst = ["dev"] ∧
      ∀ g : String, g ≠ "dev" →
        extrasLookup (setupCall find_packages fs) g = none := by
  refine ⟨rfl, fun g hg => ?_⟩
  have hb : (g == "dev") = false := beq_eq_false_iff_ne.mpr hg
  simp [extrasLookup, setupCall, List.lookup, hb]

/-- Witness for C9: instantiated at the trivial filesystem and the
group name `"test"`, which is not `"dev"` and has no declared group. -/
theorem extras_only_dev_witness :
    (@setupCall Unit (fun _ _ => []) ()).extras_require.map
        Prod.fst = ["dev"] ∧
      extrasLookup (@setupCall Unit (fun _ _ => []) ()) "test" =
        none :=
  ⟨(extras_only_dev (fun _ _ => []) ()).1,
   (extras_only_dev (fun _ _ => []) ()).2 "test" (by decide)⟩

/-- C10: the entries of the `"dev"` optional dependency group are
pairwise distinct: no tool name occurs more than once in the list. -/
theorem dev_entries_nodup {FS : Type}
    (find_packages : String → FS → List String) (fs : FS) :
    ∃ l, extrasLookup (setupCall find_packages fs) "dev" = some l ∧
      l.Nodup :=
  ⟨devTools, rfl, by decide⟩
